import Mathlib

/-!
Shallow embedding of the decision logic of the portfolio application
(`Портфолио исследователя.py`): achievement evaluation and unlocking,
goal progress recomputation, competency aggregation with weak zones,
recommendation generation, and the destructive specialty-profile reload.

The PostgreSQL tables are modelled as lists of records, SQL aggregate
queries as list folds, and Python exception handling as explicit
`Except`-style outcomes.  Machine floats in the source only ever hold
exact ratios of small integers (means of integer grades 1..5 and their
one-decimal roundings), so they are modelled as `ℚ`, with Python's
`round(x, 1)` modelled as round-half-to-even at one decimal place.
-/

namespace Portfolio

/-- Row of table `entries` (`создать create_tables`): название, тип, дата,
описание, соавторы.  Of the date only the calendar year is ever queried
(`EXTRACT(YEAR FROM дата)`), so the date is modelled by its year. -/
structure Entry where
  id : Nat
  title : String
  typ : String
  year : Int
  description : Option String
  coauthors : Option String
  deriving DecidableEq

/-- Row of table `achievements`: id (SERIAL), название (UNIQUE). -/
structure Achievement where
  id : Nat
  name : String
  deriving DecidableEq

/-- Row of table `user_achievements`: PRIMARY KEY (user_id, achievement_id). -/
structure UserAchievement where
  user_id : Nat
  achievement_id : Nat
  deriving DecidableEq

/-- Row of table `competencies`: id (SERIAL), название, категория. -/
structure Competency where
  id : Nat
  name : String
  category : String
  deriving DecidableEq

/-- Row of table `entry_competencies`: (entry_id, competency_id, уровень),
with уровень an integer between 1 and 5. -/
structure Grade where
  entry_id : Nat
  competency_id : Nat
  level : Nat
  deriving DecidableEq

/-- Row of table `goals`: описание, тип, цель_значение, текущее_значение,
завершено. -/
structure Goal where
  id : Nat
  description : String
  typ : String
  target : Int
  current : ℚ
  completed : Bool
  deriving DecidableEq

/-- The database state visible through the connection's cursor. -/
structure DB where
  entries : List Entry
  achievements : List Achievement
  user_achievements : List UserAchievement
  competencies : List Competency
  entry_competencies : List Grade
  goals : List Goal
  deriving DecidableEq

/-! ### Fault injection for persistence failures

Each `cursor.execute` site of the achievement evaluator can raise a
psycopg2 exception; a `Faults` record says which sites do.  The five
`*_q` flags are the predicate queries of `check_achievements`, the last
four are the statements inside `unlock_achievement`. -/

structure Faults where
  count_q : Bool
  coauth_q : Bool
  types_q : Bool
  year_q : Bool
  sum_q : Bool
  lookup_q : Bool
  exists_q : Bool
  insert_q : Bool
  commit_q : Bool
  deriving DecidableEq

/-- No persistence failure at any query site. -/
def noFaults : Faults :=
  ⟨false, false, false, false, false, false, false, false, false⟩

/-! ### SQL aggregate queries over `entries` used by `check_achievements` -/

/-- `SELECT COUNT(*) FROM entries WHERE соавторы IS NOT NULL AND
соавторы != '' AND соавторы != ' '`. -/
def coauthored_count (l : List Entry) : Nat :=
  (l.filter (fun e =>
    match e.coauthors with
    | none => false
    | some s => !(s == "") && !(s == " "))).length

/-- `SELECT COUNT(DISTINCT тип) FROM entries`. -/
def distinct_type_count (l : List Entry) : Nat :=
  (l.map (fun e => e.typ)).dedup.length

/-- `SELECT COUNT(*) FROM entries WHERE EXTRACT(YEAR FROM дата) = year`. -/
def year_count (l : List Entry) (year : Int) : Nat :=
  (l.filter (fun e => e.year == year)).length

/-- `SELECT SUM(CHAR_LENGTH(описание)) FROM entries WHERE описание IS NOT
NULL`, with the `result or 0` fallback for the NULL sum. -/
def descr_total (l : List Entry) : Nat :=
  ((l.filterMap (fun e => e.description)).map String.length).sum

/-! ### unlock_achievement -/

/-- Body of `unlock_achievement` before its `except` clause.  An `.error`
outcome is a raised exception, carrying the database state at the point
where it was raised.  Looking up a name absent from the catalog raises:
`fetchone()` returns `None` and `None[0]` is a `TypeError`. -/
def unlock_achievement_body (f : Faults) (db : DB) (name : String)
    (user : Nat) : Except DB (DB × Bool) :=
  if f.lookup_q then .error db else
  match db.achievements.find? (fun a => a.name == name) with
  | none => .error db
  | some a =>
    if f.exists_q then .error db else
    if db.user_achievements.any
        (fun ua => ua.user_id == user && ua.achievement_id == a.id) then
      .ok (db, false)
    else if f.insert_q then .error db else
    let db2 : DB :=
      { db with user_achievements := db.user_achievements ++ [⟨user, a.id⟩] }
    if f.commit_q then .error db2 else
    .ok (db2, true)

/-- `unlock_achievement(achievement_name, user_id)`.  The whole body runs
under `try`; the `except` clause prints the error and returns normally.
Result: (database state, whether the unlock notification was shown,
whether an exception was caught and logged). -/
def unlock_achievement (f : Faults) (db : DB) (name : String)
    (user : Nat) : DB × Bool × Bool :=
  match unlock_achievement_body f db name user with
  | .ok (db2, notified) => (db2, notified, false)
  | .error db2 => (db2, false, true)

/-- Number of `user_achievements` rows for a given (user, achievement)
pair. -/
def pair_count (db : DB) (user aid : Nat) : Nat :=
  db.user_achievements.countP
    (fun ua => ua.user_id == user && ua.achievement_id == aid)

/-! ### check_achievements -/

/-- Observable outcome of one run of the achievement evaluator: final
database state, the achievement names whose predicate held (for which
`unlock_achievement` was called), and the names for which the unlock
notification was actually shown. -/
structure EvalOut where
  db : DB
  attempted : List String
  notified : List String
  deriving DecidableEq

/-- One `if condition: self.unlock_achievement(name, user_id)` block of
`check_achievements` (the user id is always 1). -/
def run_check (f : Faults) (cond : Prop) [Decidable cond] (name : String)
    (st : EvalOut) : EvalOut :=
  if cond then
    let r := unlock_achievement f st.db name 1
    { db := r.1
      attempted := st.attempted ++ [name]
      notified := st.notified ++ if r.2.1 then [name] else [] }
  else st

/-- `check_achievements(entry_id)`.  The five predicates are evaluated in
order; the function itself has no exception handler, so a failure in one
of its own predicate queries propagates to the caller (`.error`, carrying
the database state reached so far), while failures inside
`unlock_achievement` are caught there.  `year` is the current calendar
year (`datetime.now().year`). -/
def check_achievements (f : Faults) (db : DB) (year : Int) :
    Except DB EvalOut :=
  if f.count_q then .error db else
  let st := run_check f (db.entries.length = 1) "Первый шаг" ⟨db, [], []⟩
  if f.coauth_q then .error st.db else
  let st := run_check f (3 ≤ coauthored_count st.db.entries)
    "Командный игрок" st
  if f.types_q then .error st.db else
  let st := run_check f (3 ≤ distinct_type_count st.db.entries)
    "Разносторонний" st
  if f.year_q then .error st.db else
  let st := run_check f (3 ≤ year_count st.db.entries year)
    "Плодотворный год" st
  if f.sum_q then .error st.db else
  let st := run_check f (5000 < descr_total st.db.entries) "Словобог" st
  .ok st

/-- The achievement names whose predicates hold on a given entry store:
the unlock attempts one evaluator run performs. -/
def attempts_spec (l : List Entry) (year : Int) : List String :=
  (if l.length = 1 then ["Первый шаг"] else [])
    ++ (if 3 ≤ coauthored_count l then ["Командный игрок"] else [])
    ++ (if 3 ≤ distinct_type_count l then ["Разносторонний"] else [])
    ++ (if 3 ≤ year_count l year then ["Плодотворный год"] else [])
    ++ (if 5000 < descr_total l then ["Словобог"] else [])

/-! ### Python round(x, 1)

Python's `round` rounds half to even.  All values rounded by the source
are exact rationals (means of integer grades), modelled on `ℚ`. -/

/-- Round half to even to the nearest integer. -/
def round_half_even (q : ℚ) : ℤ :=
  if q - ⌊q⌋ < 1/2 then ⌊q⌋
  else if 1/2 < q - ⌊q⌋ then ⌊q⌋ + 1
  else if (⌊q⌋ : ℤ) % 2 = 0 then ⌊q⌋ else ⌊q⌋ + 1

/-- `round(x, 1)`: round half to even at one decimal place. -/
def round1 (q : ℚ) : ℚ := (round_half_even (10 * q) : ℚ) / 10

/-! ### GoalTracker: update_goals -/

/-- The characters after the last `'('` of a string's character list, or
`none` when no `'('` occurs — Python `description.split("(")[-1]` under
the guard `"(" in description`. -/
def after_last_open : List Char → Option (List Char)
  | [] => none
  | c :: rest =>
    match after_last_open rest with
    | some t => some t
    | none => if c = '(' then some rest else none

/-- `description.split("(")[-1].rstrip(")") if "(" in description else ""`:
the competency name embedded in a goal description. -/
def comp_name_of (d : String) : String :=
  match after_last_open d.data with
  | none => ""
  | some t => ⟨(t.reverse.dropWhile (fun c => c = ')')).reverse⟩

/-- `SELECT AVG(ec.уровень) FROM competencies c JOIN entry_competencies ec
ON c.id = ec.competency_id WHERE c.название = cname`; `none` is the NULL
average (no matching rows). -/
def goal_mean (db : DB) (cname : String) : Option ℚ :=
  let ls := db.entry_competencies.filter (fun ec =>
    db.competencies.any (fun c => c.id == ec.competency_id && c.name == cname))
  if ls.isEmpty then none
  else some (((ls.map (fun g => (g.level : ℚ))).sum) / ls.length)

/-- The `current` value `update_goals` computes for one goal, dispatched
on the goal's тип.  `Добавить записи`: the global entry count.
`Поднять компетенцию`: the rounded mean grade of the competency named in
the description, `0` when the description embeds no name (`if comp_name:`
fails) or the average is NULL (`result or 0`).  Any other тип leaves the
stored value (no branch assigns `current`). -/
def goal_current (db : DB) (g : Goal) : ℚ :=
  if g.typ == "Добавить записи" then (db.entries.length : ℚ)
  else if g.typ == "Поднять компетенцию" then
    let cname := comp_name_of g.description
    if cname == "" then 0
    else round1 ((goal_mean db cname).getD 0)
  else g.current

/-- One iteration of the `update_goals` loop: write back the recomputed
`current`, then set `завершено` to `TRUE` iff `current >= target`. -/
def update_goal (db : DB) (g : Goal) : Goal :=
  let cur := goal_current db g
  { g with current := cur, completed := decide ((g.target : ℚ) ≤ cur) }

/-- `update_goals`: refresh every stored goal, in `ORDER BY id` order
(the list order).  Only the goals table changes. -/
def update_goals (db : DB) : DB :=
  { db with goals := db.goals.map (update_goal db) }

/-! ### CompetencyAggregator: update_competencies -/

/-- Kernel-reducible lexicographic comparison of character lists by code
point, modelling the SQL `ORDER BY` comparisons on text columns. -/
def lex_le : List Char → List Char → Bool
  | [], _ => true
  | _ :: _, [] => false
  | a :: as, b :: bs =>
    if a < b then true else if b < a then false else lex_le as bs

/-- `ORDER BY c.категория, c.название` comparison. -/
def comp_le (a b : Competency) : Bool :=
  if a.category == b.category then lex_le a.name.data b.name.data
  else lex_le a.category.data b.category.data

/-- Insert into a sorted list (insertion sort step). -/
def insert_by (le : α → α → Bool) (a : α) : List α → List α
  | [] => [a]
  | b :: t => if le a b then a :: b :: t else b :: insert_by le a t

/-- Insertion sort with a boolean comparison, modelling `ORDER BY`. -/
def sort_by (le : α → α → Bool) : List α → List α
  | [] => []
  | a :: t => insert_by le a (sort_by le t)

/-- `AVG(ec.уровень)` over the `entry_competencies` rows of one
competency (`LEFT JOIN ... GROUP BY c.id`); `none` is NULL (no rows). -/
def comp_avg (db : DB) (c : Competency) : Option ℚ :=
  let ls := db.entry_competencies.filter (fun ec => ec.competency_id == c.id)
  if ls.isEmpty then none
  else some (((ls.map (fun g => (g.level : ℚ))).sum) / ls.length)

/-- One row of the aggregate query of `update_competencies`: competency
id, название, категория and the raw (unrounded) NULL-able average. -/
structure CompRow where
  id : Nat
  name : String
  category : String
  avg : Option ℚ
  deriving DecidableEq

/-- The result set of `update_competencies`' aggregate query, ordered by
категория then название. -/
def comp_rows (db : DB) : List CompRow :=
  (sort_by comp_le db.competencies).map (fun c =>
    { id := c.id, name := c.name, category := c.category
      avg := comp_avg db c })

/-- `level = round(float(avg_level or 0), 1)` in `update_competencies`. -/
def row_level (r : CompRow) : ℚ := round1 (r.avg.getD 0)

/-- The displayed mean level of a competency: its rounded average, 0 when
it has no grades. -/
def mean_level (db : DB) (c : Competency) : ℚ := round1 ((comp_avg db c).getD 0)

/-- The weak-zone list `update_competencies` accumulates: the rows whose
rounded level satisfies `level < 3 and level > 0`, with their levels. -/
def weak_zones (db : DB) : List (String × ℚ) :=
  (comp_rows db).filterMap (fun r =>
    if row_level r < 3 ∧ 0 < row_level r then some (r.name, row_level r)
    else none)

/-! ### RecommendationEngine: generate_recommendations

The message texts are the source's literals (apostrophes written `\x27`).
`generate_recommendations` receives the raw rows of `update_competencies`'
aggregate query, so its `level` is the unrounded average. -/

/-- Fallback emitted when the recommendations list stayed empty. -/
def fallback_msg : String :=
  "Все компетенции развиты хорошо! Продолжайте в том же духе."

/-- Message of the `level == 0` tier. -/
def msg_unassessed (name : String) : String :=
  "Вы еще не оценивали компетенцию \x27" ++ name
    ++ "\x27. Добавьте запись с этой компетенцией."

/-- Critical-tier message for names containing `Программирование`. -/
def msg_prog (name : String) : String :=
  "Компетенция \x27" ++ name
    ++ "\x27 требует развития. Рекомендуем решать задачи на LeetCode или Codewars."

/-- Critical-tier message for names containing `БД`. -/
def msg_bd (name : String) : String :=
  "Компетенция \x27" ++ name
    ++ "\x27 низкая. Рекомендуем пройти курс по SQL и NoSQL базам данных."

/-- Critical-tier message for names containing `Презентация`. -/
def msg_pres (name : String) : String :=
  "Компетенция \x27" ++ name
    ++ "\x27 слабая. Выступите с докладом на студенческой конференции."

/-- Critical-tier message for all other names. -/
def msg_generic (name : String) : String :=
  "Компетенция \x27" ++ name
    ++ "\x27 требует серьезного развития. Рекомендуем пройти соответствующий курс."

/-- Message of the `level < 3` (below-average) tier. -/
def msg_below (name : String) : String :=
  "Уровень компетенции \x27" ++ name
    ++ "\x27 ниже среднего. Рекомендуем практиковаться в этой области."

/-- Message of the `level >= 4.5` tier. -/
def msg_excellent (name : String) : String :=
  "Компетенция \x27" ++ name
    ++ "\x27 развита отлично! Можете делиться опытом с другими."

/-- `needle in haystack` of Python: substring occurrence, by structural
recursion over the haystack. -/
def has_sub_aux (needle : List Char) : List Char → Bool
  | [] => needle.isPrefixOf []
  | c :: t => needle.isPrefixOf (c :: t) || has_sub_aux needle t

/-- `sub in s` for strings. -/
def contains_sub (s sub : String) : Bool := has_sub_aux sub.data s.data

/-- The keyword dispatch of the `level < 2` branch: the first matching
token of `Программирование`, `БД`, `Презентация` wins, any other name
gets the generic message. -/
def msg_critical (name : String) : String :=
  if contains_sub name "Программирование" then msg_prog name
  else if contains_sub name "БД" then msg_bd name
  else if contains_sub name "Презентация" then msg_pres name
  else msg_generic name

/-- The `if/elif` ladder of `generate_recommendations` for one
(name, level) pair: at most one message per competency.  `none` is the
silent tier (the final `elif level >= 4.5` failed after `level < 3`
failed). -/
def recommendation_for (name : String) (level : ℚ) : Option String :=
  if level = 0 then some (msg_unassessed name)
  else if level < 2 then some (msg_critical name)
  else if level < 3 then some (msg_below name)
  else if 4.5 ≤ level then some (msg_excellent name)
  else none

/-- `generate_recommendations(comp_data)`: collect the per-competency
messages in input order; if none accumulated, emit the single fallback.
(The numbered rendering of the list into the text widget is
presentation.) -/
def generate_recommendations (comp_data : List CompRow) : List String :=
  let recs := comp_data.filterMap (fun r =>
    recommendation_for r.name (r.avg.getD 0))
  if recs.isEmpty then [fallback_msg] else recs

/-! ### load_competencies -/

/-- `load_competencies`, persistence part: `DELETE FROM competencies`
(whose `ON DELETE CASCADE` foreign key also deletes every
`entry_competencies` row referencing a deleted competency), then insert
the profile's (название, категория) pairs with fresh SERIAL ids
`start_id, start_id + 1, ...`.  Nothing else changes. -/
def load_competencies (db : DB) (profile : List (String × String))
    (start_id : Nat) : DB :=
  let old_ids := db.competencies.map (fun c => c.id)
  { db with
    competencies := profile.enum.map (fun p =>
      { id := start_id + p.1, name := p.2.1, category := p.2.2 })
    entry_competencies := db.entry_competencies.filter (fun g =>
      !(old_ids.contains g.competency_id)) }

/-! ### Helper lemmas -/

/-- Every outcome of the unlock body keeps `entries` and `achievements`
unchanged (only `user_achievements` can grow). -/
lemma unlock_body_fields (f : Faults) (db : DB) (name : String) (user : Nat) :
    (match unlock_achievement_body f db name user with
     | .ok x => x.1.entries = db.entries ∧ x.1.achievements = db.achievements
     | .error e => e.entries = db.entries ∧ e.achievements = db.achievements) := by
  unfold unlock_achievement_body
  by_cases hl : f.lookup_q = true
  · simp [hl]
  · simp only [hl, if_false, Bool.false_eq_true]
    cases hf : db.achievements.find? (fun a => a.name == name) with
    | none => simp
    | some a =>
      by_cases he : f.exists_q = true
      · simp [he]
      · simp only [he, if_false, Bool.false_eq_true]
        by_cases ha : db.user_achievements.any
            (fun ua => ua.user_id == user && ua.achievement_id == a.id) = true
        · simp [ha]
        · simp only [ha, if_false, Bool.false_eq_true]
          by_cases hi : f.insert_q = true
          · simp [hi]
          · by_cases hc : f.commit_q = true <;> simp [hi, hc]

lemma unlock_entries (f : Faults) (db : DB) (name : String) (user : Nat) :
    (unlock_achievement f db name user).1.entries = db.entries := by
  have h := unlock_body_fields f db name user
  unfold unlock_achievement
  cases hb : unlock_achievement_body f db name user with
  | ok x => rw [hb] at h; exact h.1
  | error e => rw [hb] at h; exact h.1

lemma unlock_achievements (f : Faults) (db : DB) (name : String) (user : Nat) :
    (unlock_achievement f db name user).1.achievements = db.achievements := by
  have h := unlock_body_fields f db name user
  unfold unlock_achievement
  cases hb : unlock_achievement_body f db name user with
  | ok x => rw [hb] at h; exact h.2
  | error e => rw [hb] at h; exact h.2

lemma run_check_entries (f : Faults) (c : Prop) [Decidable c] (n : String)
    (st : EvalOut) : (run_check f c n st).db.entries = st.db.entries := by
  unfold run_check
  split
  · exact unlock_entries f st.db n 1
  · rfl

lemma run_check_attempted (f : Faults) (c : Prop) [Decidable c] (n : String)
    (st : EvalOut) :
    (run_check f c n st).attempted = st.attempted ++ (if c then [n] else []) := by
  unfold run_check
  split <;> simp

/-- When none of the evaluator's own predicate queries fails, the run
completes normally and attempts exactly the predicates that hold
(failures inside `unlock_achievement` are caught there and do not stop
the evaluation). -/
lemma check_achievements_ok (f : Faults) (db : DB) (year : Int)
    (h1 : f.count_q = false) (h2 : f.coauth_q = false)
    (h3 : f.types_q = false) (h4 : f.year_q = false) (h5 : f.sum_q = false) :
    ∃ out, check_achievements f db year = .ok out ∧
      out.attempted = attempts_spec db.entries year := by
  unfold check_achievements
  simp only [h1, h2, h3, h4, h5, Bool.false_eq_true, if_false]
  refine ⟨_, rfl, ?_⟩
  simp [run_check_attempted, run_check_entries, attempts_spec]

lemma mem_if_singleton {c : Prop} [Decidable c] {x n : α} :
    x ∈ (if c then [n] else []) ↔ c ∧ x = n := by
  split <;> simp_all

lemma pair_count_zero_iff (db : DB) (user aid : Nat) :
    pair_count db user aid = 0 ↔
      db.user_achievements.any
        (fun ua => ua.user_id == user && ua.achievement_id == aid) = false := by
  simp [pair_count, List.countP_eq_zero, List.any_eq_true]

/-! ### Claim theorems -/

/-- Claim C1: for a user and an achievement name present in the catalog,
calling `unlock_achievement` twice leaves exactly one `user_achievements`
row for the pair, the second call is a silent no-op (same state, no
notification, no raised or logged error), and the notification is shown
on the first call exactly when the pair was not yet unlocked.  The
hypothesis `pair_count db user a.id ≤ 1` is the table's PRIMARY KEY
invariant. -/
theorem claim1_unlock_idempotent (db : DB) (name : String) (user : Nat)
    (a : Achievement)
    (hfind : db.achievements.find? (fun x => x.name == name) = some a)
    (hinv : pair_count db user a.id ≤ 1) :
    pair_count (unlock_achievement noFaults
        (unlock_achievement noFaults db name user).1 name user).1 user a.id = 1
    ∧ (unlock_achievement noFaults
        (unlock_achievement noFaults db name user).1 name user).1
      = (unlock_achievement noFaults db name user).1
    ∧ (unlock_achievement noFaults
        (unlock_achievement noFaults db name user).1 name user).2.1 = false
    ∧ (unlock_achievement noFaults
        (unlock_achievement noFaults db name user).1 name user).2.2 = false
    ∧ ((unlock_achievement noFaults db name user).2.1 = true
        ↔ pair_count db user a.id = 0) := by
  cases ha : db.user_achievements.any
      (fun ua => ua.user_id == user && ua.achievement_id == a.id) with
  | true =>
    have h1 : unlock_achievement noFaults db name user = (db, false, false) := by
      simp [unlock_achievement, unlock_achievement_body, noFaults, hfind, ha]
    have hne : pair_count db user a.id ≠ 0 := by
      intro h0
      rw [pair_count_zero_iff] at h0
      rw [h0] at ha
      cases ha
    have hcnt : pair_count db user a.id = 1 := by omega
    simp only [h1]
    exact ⟨hcnt, by trivial, by trivial, by trivial, by simp [hcnt]⟩
  | false =>
    have hcnt0 : pair_count db user a.id = 0 := (pair_count_zero_iff db user a.id).mpr ha
    have h1 : unlock_achievement noFaults db name user
        = ({ db with user_achievements :=
              db.user_achievements ++ [⟨user, a.id⟩] }, true, false) := by
      simp [unlock_achievement, unlock_achievement_body, noFaults, hfind, ha]
    have ha2 : ({ db with user_achievements :=
          db.user_achievements ++ [⟨user, a.id⟩] } : DB).user_achievements.any
        (fun ua => ua.user_id == user && ua.achievement_id == a.id) = true := by
      simp [List.any_append]
    have h2 : unlock_achievement noFaults
        ({ db with user_achievements :=
            db.user_achievements ++ [⟨user, a.id⟩] } : DB) name user
        = ({ db with user_achievements :=
              db.user_achievements ++ [⟨user, a.id⟩] }, false, false) := by
      simp only [unlock_achievement, unlock_achievement_body, noFaults]
      simp [hfind, ha2]
    simp only [h1, h2]
    refine ⟨?_, by trivial, by trivial, by trivial, by simp [hcnt0]⟩
    unfold pair_count at hcnt0 ⊢
    simp [List.countP_append, hcnt0]

/-- Concrete input for C1: a catalog with the achievement and no unlock
row yet. -/
def dbW1 : DB := ⟨[], [⟨1, "Первый шаг"⟩], [], [], [], []⟩

/-- Witness for C1 at a concrete catalog and user. -/
theorem claim1_unlock_idempotent_witness :
    (dbW1.achievements.find? (fun x => x.name == "Первый шаг")
      = some ⟨1, "Первый шаг"⟩)
    ∧ pair_count dbW1 1 (1 : Nat) ≤ 1
    ∧ (pair_count (unlock_achievement noFaults
          (unlock_achievement noFaults dbW1 "Первый шаг" 1).1 "Первый шаг" 1).1
          1 (Achievement.id ⟨1, "Первый шаг"⟩) = 1
      ∧ (unlock_achievement noFaults
          (unlock_achievement noFaults dbW1 "Первый шаг" 1).1 "Первый шаг" 1).1
        = (unlock_achievement noFaults dbW1 "Первый шаг" 1).1
      ∧ (unlock_achievement noFaults
          (unlock_achievement noFaults dbW1 "Первый шаг" 1).1 "Первый шаг" 1).2.1
        = false
      ∧ (unlock_achievement noFaults
          (unlock_achievement noFaults dbW1 "Первый шаг" 1).1 "Первый шаг" 1).2.2
        = false
      ∧ ((unlock_achievement noFaults dbW1 "Первый шаг" 1).2.1 = true
          ↔ pair_count dbW1 1 (Achievement.id ⟨1, "Первый шаг"⟩) = 0)) :=
  ⟨by decide, by decide,
    claim1_unlock_idempotent dbW1 "Первый шаг" 1 ⟨1, "Первый шаг"⟩
      (by decide) (by decide)⟩

/-- Claim C2: a `check_achievements` run attempts the "Первый шаг"
unlock exactly when the total entry count equals 1 (not `≥ 1`). -/
theorem claim2_first_step_boundary (db : DB) (year : Int) (out : EvalOut)
    (h : check_achievements noFaults db year = .ok out) :
    "Первый шаг" ∈ out.attempted ↔ db.entries.length = 1 := by
  obtain ⟨out', h', hatt⟩ :=
    check_achievements_ok noFaults db year rfl rfl rfl rfl rfl
  rw [h] at h'
  injection h' with h''
  rw [h'', hatt]
  simp [attempts_spec, List.mem_append, mem_if_singleton]

/-- Concrete store with a single entry, for the C2 witness. -/
def dbW2 : DB :=
  ⟨[⟨1, "Статья", "Публикация", 2025, none, none⟩],
   [⟨1, "Первый шаг"⟩], [], [], [], []⟩

/-- Witness for C2: with exactly one stored entry the run attempts
"Первый шаг". -/
theorem claim2_first_step_boundary_witness :
    check_achievements noFaults dbW2 2025
      = .ok ⟨{ dbW2 with user_achievements := [⟨1, 1⟩] },
             ["Первый шаг"], ["Первый шаг"]⟩
    ∧ ("Первый шаг" ∈
        (EvalOut.attempted ⟨{ dbW2 with user_achievements := [⟨1, 1⟩] },
          ["Первый шаг"], ["Первый шаг"]⟩)
        ↔ dbW2.entries.length = 1) :=
  ⟨rfl,
    claim2_first_step_boundary dbW2 2025
      ⟨{ dbW2 with user_achievements := [⟨1, 1⟩] },
        ["Первый шаг"], ["Первый шаг"]⟩ rfl⟩

/-- The claim's qualification predicate for "Team player", following the
spec's words: the coauthors field is present, non-blank and not
whitespace-only. -/
def spec_nonblank_coauthors : Option String → Bool
  | none => false
  | some s => !(s.data.all (fun c => c.isWhitespace))

/-- The five achievements seeded by `create_tables`, with their SERIAL
ids. -/
def catalog5 : List Achievement :=
  [⟨1, "Первый шаг"⟩, ⟨2, "Командный игрок"⟩, ⟨3, "Разносторонний"⟩,
   ⟨4, "Плодотворный год"⟩, ⟨5, "Словобог"⟩]

/-- Three entries whose coauthors field is two spaces: whitespace-only,
yet different from `''` and `' '`, so the source's filter counts them. -/
def dbC7 : DB :=
  ⟨[⟨1, "Статья", "Проект", 2020, none, some "  "⟩,
    ⟨2, "Доклад", "Проект", 2020, none, some "  "⟩,
    ⟨3, "Отчет", "Проект", 2020, none, some "  "⟩],
   catalog5, [], [], [], []⟩

/-- Counterexample to C7 as stated: in `dbC7` no entry has a non-blank,
non-whitespace-only coauthors field, yet the run unlocks (and notifies)
"Командный игрок", because the source's filter only excludes `''` and
the single-space string `' '`. -/
theorem claim7_team_player_counterexample :
    check_achievements noFaults dbC7 2025
      = .ok ⟨{ dbC7 with user_achievements := [⟨1, 2⟩] },
             ["Командный игрок"], ["Командный игрок"]⟩
    ∧ (dbC7.entries.filter
        (fun e => spec_nonblank_coauthors e.coauthors)).length = 0 := by
  exact ⟨rfl, by decide⟩

/-- Claim C7 amended: the "Командный игрок" unlock is attempted exactly
when at least 3 entries have a coauthors value that is non-NULL and
differs from both `''` and the single-space string `' '` (each
qualifying entry counted once); whitespace-only values of length ≥ 2 do
qualify. -/
theorem claim7_team_player_amended (db : DB) (year : Int) (out : EvalOut)
    (h : check_achievements noFaults db year = .ok out) :
    "Командный игрок" ∈ out.attempted ↔ 3 ≤ coauthored_count db.entries := by
  obtain ⟨out', h', hatt⟩ :=
    check_achievements_ok noFaults db year rfl rfl rfl rfl rfl
  rw [h] at h'
  injection h' with h''
  rw [h'', hatt]
  simp [attempts_spec, List.mem_append, mem_if_singleton]

/-- Witness for the amended C7, on the concrete store `dbC7`. -/
theorem claim7_team_player_amended_witness :
    check_achievements noFaults dbC7 2025
      = .ok ⟨{ dbC7 with user_achievements := [⟨1, 2⟩] },
             ["Командный игрок"], ["Командный игрок"]⟩
    ∧ ("Командный игрок" ∈
        (EvalOut.attempted ⟨{ dbC7 with user_achievements := [⟨1, 2⟩] },
          ["Командный игрок"], ["Командный игрок"]⟩)
        ↔ 3 ≤ coauthored_count dbC7.entries) :=
  ⟨rfl,
    claim7_team_player_amended dbC7 2025
      ⟨{ dbC7 with user_achievements := [⟨1, 2⟩] },
        ["Командный игрок"], ["Командный игрок"]⟩ rfl⟩

/-- Store whose achievements catalog lacks "Первый шаг" (empty catalog)
while one entry makes the first-step predicate fire. -/
def dbC8 : DB :=
  ⟨[⟨1, "Статья", "Публикация", 2020, none, none⟩], [], [], [], [], []⟩

/-- Counterexample to C8 as stated: for a name absent from the catalog
the lookup failure is caught inside `unlock_achievement` itself — the
call completes normally (no insert, no notification, error merely
logged), and the evaluator that called it finishes with `.ok`.  Nothing
propagates to the caller, so the unlock does not "fail loudly with a
NotFoundError". -/
theorem claim8_missing_name_counterexample :
    unlock_achievement noFaults dbC8 "Первый шаг" 1 = (dbC8, false, true)
    ∧ check_achievements noFaults dbC8 2025
        = .ok ⟨dbC8, ["Первый шаг"], []⟩ :=
  ⟨rfl, rfl⟩

/-- Claim C8 amended: for every achievement name absent from the catalog,
the lookup inside `unlock_achievement` raises (`fetchone()` yields `None`
and indexing it is a `TypeError`), but the function's own `except` clause
catches and logs it; the call returns normally with no
`user_achievements` insert and no notification, and no exception reaches
the caller. -/
theorem claim8_missing_name_amended (db : DB) (name : String) (user : Nat)
    (h : db.achievements.find? (fun a => a.name == name) = none) :
    unlock_achievement_body noFaults db name user = .error db
    ∧ unlock_achievement noFaults db name user = (db, false, true) := by
  constructor
  · simp [unlock_achievement_body, noFaults, h]
  · simp [unlock_achievement, unlock_achievement_body, noFaults, h]

/-- Witness for the amended C8: the seeded catalog does not contain
"Суперзвезда". -/
theorem claim8_missing_name_amended_witness :
    (DB.achievements ⟨[], catalog5, [], [], [], []⟩).find?
        (fun a => a.name == "Суперзвезда") = none
    ∧ (unlock_achievement_body noFaults ⟨[], catalog5, [], [], [], []⟩
          "Суперзвезда" 1 = .error ⟨[], catalog5, [], [], [], []⟩
      ∧ unlock_achievement noFaults ⟨[], catalog5, [], [], [], []⟩
          "Суперзвезда" 1 = (⟨[], catalog5, [], [], [], []⟩, false, true)) :=
  ⟨by decide,
    claim8_missing_name_amended ⟨[], catalog5, [], [], [], []⟩
      "Суперзвезда" 1 (by decide)⟩

/-- Three entries of three distinct types in the current year: absent
faults, the run unlocks "Разносторонний" and "Плодотворный год". -/
def dbC9 : DB :=
  ⟨[⟨1, "Статья", "Проект", 2025, none, none⟩,
    ⟨2, "Доклад", "Публикация", 2025, none, none⟩,
    ⟨3, "Отчет", "Конференция", 2025, none, none⟩],
   catalog5, [], [], [], []⟩

/-- Counterexample to C9 as stated: a persistence failure in the second
predicate query (the coauthors count) propagates out of
`check_achievements` as an exception — the run aborts with the store
unchanged, and the remaining predicate checks, which without the fault
would have unlocked "Разносторонний" and "Плодотворный год", never
execute.  The evaluator catches failures only inside
`unlock_achievement`, not around its own predicate queries. -/
theorem claim9_evaluator_failure_counterexample :
    check_achievements { noFaults with coauth_q := true } dbC9 2025
      = .error dbC9
    ∧ check_achievements noFaults dbC9 2025
        = .ok ⟨{ dbC9 with user_achievements := [⟨1, 3⟩, ⟨1, 4⟩] },
               ["Разносторонний", "Плодотворный год"],
               ["Разносторонний", "Плодотворный год"]⟩ :=
  ⟨rfl, rfl⟩

/-- Claim C9 amended: persistence failures in the unlock steps (lookup,
existence check, insert, commit) are caught and logged inside
`unlock_achievement`, and the evaluator completes normally with every
predicate still checked; but this protection does not extend to the
evaluator's own five predicate queries — only when those do not fail
does the run complete. -/
theorem claim9_unlock_failures_contained (f : Faults) (db : DB) (year : Int)
    (h1 : f.count_q = false) (h2 : f.coauth_q = false)
    (h3 : f.types_q = false) (h4 : f.year_q = false) (h5 : f.sum_q = false) :
    ∃ out, check_achievements f db year = .ok out ∧
      out.attempted = attempts_spec db.entries year :=
  check_achievements_ok f db year h1 h2 h3 h4 h5

/-- Witness for the amended C9: all four unlock-site faults injected at
once; the evaluator still completes and still checks every predicate. -/
theorem claim9_unlock_failures_contained_witness :
    (Faults.count_q ⟨false, false, false, false, false, true, true, true, true⟩
        = false)
    ∧ (∃ out, check_achievements
          ⟨false, false, false, false, false, true, true, true, true⟩
          dbC9 2025 = .ok out ∧
        out.attempted = attempts_spec dbC9.entries 2025) :=
  ⟨rfl,
    claim9_unlock_failures_contained
      ⟨false, false, false, false, false, true, true, true, true⟩
      dbC9 2025 rfl rfl rfl rfl rfl⟩

/-! ### String and rounding helper lemmas -/

lemma str_data_append (s t : String) : (s ++ t).data = s.data ++ t.data := by
  cases s
  cases t
  rfl

lemma str_eq_of_data {s t : String} (h : s.data = t.data) : s = t := by
  cases s
  cases t
  exact congrArg String.mk h

lemma len_wrap (A name B : String) :
    (A ++ name ++ B).length = A.length + name.length + B.length := by
  rw [String.length_append, String.length_append]

/-- Two wrapped messages with the same affix lengths around the same name
are distinct when the total fixed lengths differ. -/
lemma wrap_ne_of_len {A B A2 B2 : String} (name : String)
    (h : A.length + B.length ≠ A2.length + B2.length) :
    A ++ name ++ B ≠ A2 ++ name ++ B2 := by
  intro he
  have hl := congrArg String.length he
  rw [len_wrap, len_wrap] at hl
  omega

/-- Same wrapper, different suffixes: the wrapped messages differ. -/
lemma wrap_ne_of_suffix {B B2 : String} (A name : String) (h : B ≠ B2) :
    A ++ name ++ B ≠ A ++ name ++ B2 := by
  intro he
  apply h
  have hd := congrArg String.data he
  rw [str_data_append, str_data_append, str_data_append, str_data_append,
    List.append_assoc, List.append_assoc] at hd
  exact str_eq_of_data (List.append_cancel_left (List.append_cancel_left hd))

/-- `round(x, 1)` is the identity on rationals that are integer multiples
of one tenth. -/
lemma round1_eq_self_of_int (q : ℚ) (m : ℤ) (h : 10 * q = (m : ℚ)) :
    round1 q = q := by
  unfold round1 round_half_even
  rw [h, Int.floor_intCast, sub_self]
  norm_num
  linarith

lemma round1_zero : round1 0 = 0 := round1_eq_self_of_int 0 0 (by norm_num)

/-- A raise-competency goal with target 4 whose description embeds the
competency name. -/
def goalUp : Goal :=
  ⟨1, "Поднять уровень (Программирование)", "Поднять компетенцию", 4, 0, false⟩

/-- Store where Программирование has grades 4 and 5 (mean 4.5). -/
def dbHighC3 : DB :=
  ⟨[⟨1, "Статья", "Проект", 2025, none, none⟩,
    ⟨2, "Доклад", "Проект", 2025, none, none⟩],
   catalog5, [], [⟨1, "Программирование", "Технические"⟩],
   [⟨1, 1, 4⟩, ⟨2, 1, 5⟩], [goalUp]⟩

/-- The same store after the graded entries were deleted (the cascade
removed the grades): the mean is back to 0. -/
def dbLowC3 : DB :=
  ⟨[], catalog5, [], [⟨1, "Программирование", "Технические"⟩], [], [goalUp]⟩

/-- Claim C3: every goal refresh overwrites `current` with the freshly
computed value and `завершено` with `current >= target`, with no
dependence on the previously stored flag; in the concrete
raise-competency scenario (target 4) the flag flips to completed when
the mean reaches 4.5 and flips back to not completed when the grades are
gone. -/
theorem claim3_goal_completion_recomputed :
    (∀ (db : DB) (g : Goal) (b : Bool),
      update_goal db { g with completed := b }
        = { g with current := goal_current db g
                   completed := decide ((g.target : ℚ) ≤ goal_current db g) })
    ∧ (update_goal dbHighC3 { goalUp with completed := false }).completed
        = true
    ∧ (update_goal dbLowC3 { goalUp with completed := true }).completed
        = false := by
  refine ⟨fun db g b => rfl, ?_, ?_⟩
  · have hcn : comp_name_of "Поднять уровень (Программирование)"
        = "Программирование" := by decide
    have hgm : goal_mean dbHighC3 "Программирование" = some (9 / 2) := by
      simp [goal_mean, dbHighC3]
      norm_num
    have hr : round1 (9 / 2) = 9 / 2 :=
      round1_eq_self_of_int _ 45 (by norm_num)
    simp [update_goal, goal_current, goalUp, hcn, hgm, hr]
    norm_num [dbHighC3]
  · have hcn : comp_name_of "Поднять уровень (Программирование)"
        = "Программирование" := by decide
    have hgm : goal_mean dbLowC3 "Программирование" = none := by
      simp [goal_mean, dbLowC3]
    simp [update_goal, goal_current, goalUp, hcn, hgm, round1_zero]

/-- The ladder of `generate_recommendations` stays silent exactly on the
`[3, 4.5)` band. -/
lemma rec_none_iff (name : String) (level : ℚ) :
    recommendation_for name level = none ↔ 3 ≤ level ∧ level < 4.5 := by
  unfold recommendation_for
  by_cases h1 : level = 0
  · simp only [h1, if_pos rfl]
    simp
  · by_cases h2 : level < 2
    · simp [h1, h2]
      rintro h3
      linarith
    · by_cases h3 : level < 3
      · simp [h1, h2, h3]
      · by_cases h4 : (4.5 : ℚ) ≤ level
        · simp [h1, h2, h3, h4]
        · simp [h1, h2, h3, h4]
          exact ⟨not_lt.mp h3, not_le.mp h4⟩

/-- Every per-competency message is strictly longer than the fallback
message, hence never equal to it. -/
lemma rec_longer_than_fallback (name : String) (level : ℚ) (m : String)
    (h : recommendation_for name level = some m) :
    fallback_msg.length < m.length := by
  have hname : 0 ≤ name.length := Nat.zero_le _
  unfold recommendation_for at h
  split at h
  · cases h
    rw [msg_unassessed, len_wrap]
    have : ("Вы еще не оценивали компетенцию \x27" : String).length
        + ("\x27. Добавьте запись с этой компетенцией." : String).length = 72 := by
      decide
    have hf : fallback_msg.length = 58 := by decide
    omega
  · split at h
    · cases h
      rw [msg_critical]
      have hf : fallback_msg.length = 58 := by decide
      split
      · rw [msg_prog, len_wrap]
        have : ("Компетенция \x27" : String).length
            + ("\x27 требует развития. Рекомендуем решать задачи на LeetCode или Codewars." : String).length
            = 84 := by decide
        omega
      · split
        · rw [msg_bd, len_wrap]
          have : ("Компетенция \x27" : String).length
              + ("\x27 низкая. Рекомендуем пройти курс по SQL и NoSQL базам данных." : String).length
              = 75 := by decide
          omega
        · split
          · rw [msg_pres, len_wrap]
            have : ("Компетенция \x27" : String).length
                + ("\x27 слабая. Выступите с докладом на студенческой конференции." : String).length
                = 72 := by decide
            omega
          · rw [msg_generic, len_wrap]
            have : ("Компетенция \x27" : String).length
                + ("\x27 требует серьезного развития. Рекомендуем пройти соответствующий курс." : String).length
                = 84 := by decide
            omega
    · split at h
      · cases h
        rw [msg_below, len_wrap]
        have : ("Уровень компетенции \x27" : String).length
            + ("\x27 ниже среднего. Рекомендуем практиковаться в этой области." : String).length
            = 80 := by decide
        have hf : fallback_msg.length = 58 := by decide
        omega
      · split at h
        · cases h
          rw [msg_excellent, len_wrap]
          have : ("Компетенция \x27" : String).length
              + ("\x27 развита отлично! Можете делиться опытом с другими." : String).length
              = 65 := by decide
          have hf : fallback_msg.length = 58 := by decide
          omega
        · cases h

/-- Claim C4: the recommendation ladder emits exactly one message per
(name, level) pair in the unassessed (`= 0`), critical (`(0, 2)`,
keyword-dispatched), below-average (`[2, 3)`) and excellent (`≥ 4.5`)
tiers, stays silent on `[3, 4.5)`, and the four critical suggestions
(programming, database, presentation, generic) are pairwise distinct. -/
theorem claim4_recommendation_tiers (name : String) (level : ℚ)
    (_h0 : 0 ≤ level) :
    (level = 0 → recommendation_for name level = some (msg_unassessed name))
    ∧ (0 < level → level < 2 →
        recommendation_for name level = some (msg_critical name))
    ∧ (2 ≤ level → level < 3 →
        recommendation_for name level = some (msg_below name))
    ∧ (3 ≤ level → level < 4.5 → recommendation_for name level = none)
    ∧ (4.5 ≤ level →
        recommendation_for name level = some (msg_excellent name))
    ∧ (contains_sub name "Программирование" = true →
        msg_critical name = msg_prog name)
    ∧ (contains_sub name "Программирование" = false →
        contains_sub name "БД" = true → msg_critical name = msg_bd name)
    ∧ (contains_sub name "Программирование" = false →
        contains_sub name "БД" = false →
        contains_sub name "Презентация" = true →
        msg_critical name = msg_pres name)
    ∧ (contains_sub name "Программирование" = false →
        contains_sub name "БД" = false →
        contains_sub name "Презентация" = false →
        msg_critical name = msg_generic name)
    ∧ msg_prog name ≠ msg_bd name
    ∧ msg_prog name ≠ msg_pres name
    ∧ msg_prog name ≠ msg_generic name
    ∧ msg_bd name ≠ msg_pres name
    ∧ msg_bd name ≠ msg_generic name
    ∧ msg_pres name ≠ msg_generic name := by
  refine ⟨?_, ?_, ?_, ?_, ?_, ?_, ?_, ?_, ?_, ?_, ?_, ?_, ?_, ?_, ?_⟩
  · intro h
    simp [recommendation_for, h]
  · intro h1 h2
    have hne : level ≠ 0 := ne_of_gt h1
    simp [recommendation_for, hne, h2]
  · intro h1 h2
    have hne : level ≠ 0 := by intro he; rw [he] at h1; norm_num at h1
    have hn2 : ¬(level < 2) := by linarith
    simp [recommendation_for, hne, hn2, h2]
  · intro h1 h2
    exact (rec_none_iff name level).mpr ⟨h1, h2⟩
  · intro h1
    have hne : level ≠ 0 := by intro he; rw [he] at h1; norm_num at h1
    have hn2 : ¬(level < 2) := by nlinarith
    have hn3 : ¬(level < 3) := by nlinarith
    simp [recommendation_for, hne, hn2, hn3, h1]
  · intro h
    simp [msg_critical, h]
  · intro h1 h2
    simp [msg_critical, h1, h2]
  · intro h1 h2 h3
    simp [msg_critical, h1, h2, h3]
  · intro h1 h2 h3
    simp [msg_critical, h1, h2, h3]
  · rw [msg_prog, msg_bd]
    exact wrap_ne_of_len name (by decide)
  · rw [msg_prog, msg_pres]
    exact wrap_ne_of_len name (by decide)
  · rw [msg_prog, msg_generic]
    exact wrap_ne_of_suffix _ _ (by decide)
  · rw [msg_bd, msg_pres]
    exact wrap_ne_of_len name (by decide)
  · rw [msg_bd, msg_generic]
    exact wrap_ne_of_len name (by decide)
  · rw [msg_pres, msg_generic]
    exact wrap_ne_of_len name (by decide)

/-- Witness for C4 at the concrete pair ("Работа с БД", 1.5): the
database token fires in the critical tier. -/
theorem claim4_recommendation_tiers_witness :
    (0 : ℚ) ≤ 3 / 2
    ∧ (((3 : ℚ) / 2 = 0 →
        recommendation_for "Работа с БД" (3 / 2)
          = some (msg_unassessed "Работа с БД"))
      ∧ (0 < (3 : ℚ) / 2 → (3 : ℚ) / 2 < 2 →
          recommendation_for "Работа с БД" (3 / 2)
            = some (msg_critical "Работа с БД"))
      ∧ (2 ≤ (3 : ℚ) / 2 → (3 : ℚ) / 2 < 3 →
          recommendation_for "Работа с БД" (3 / 2)
            = some (msg_below "Работа с БД"))
      ∧ (3 ≤ (3 : ℚ) / 2 → (3 : ℚ) / 2 < 4.5 →
          recommendation_for "Работа с БД" (3 / 2) = none)
      ∧ (4.5 ≤ (3 : ℚ) / 2 →
          recommendation_for "Работа с БД" (3 / 2)
            = some (msg_excellent "Работа с БД"))
      ∧ (contains_sub "Работа с БД" "Программирование" = true →
          msg_critical "Работа с БД" = msg_prog "Работа с БД")
      ∧ (contains_sub "Работа с БД" "Программирование" = false →
          contains_sub "Работа с БД" "БД" = true →
          msg_critical "Работа с БД" = msg_bd "Работа с БД")
      ∧ (contains_sub "Работа с БД" "Программирование" = false →
          contains_sub "Работа с БД" "БД" = false →
          contains_sub "Работа с БД" "Презентация" = true →
          msg_critical "Работа с БД" = msg_pres "Работа с БД")
      ∧ (contains_sub "Работа с БД" "Программирование" = false →
          contains_sub "Работа с БД" "БД" = false →
          contains_sub "Работа с БД" "Презентация" = false →
          msg_critical "Работа с БД" = msg_generic "Работа с БД")
      ∧ msg_prog "Работа с БД" ≠ msg_bd "Работа с БД"
      ∧ msg_prog "Работа с БД" ≠ msg_pres "Работа с БД"
      ∧ msg_prog "Работа с БД" ≠ msg_generic "Работа с БД"
      ∧ msg_bd "Работа с БД" ≠ msg_pres "Работа с БД"
      ∧ msg_bd "Работа с БД" ≠ msg_generic "Работа с БД"
      ∧ msg_pres "Работа с БД" ≠ msg_generic "Работа с БД") :=
  ⟨by norm_num,
    claim4_recommendation_tiers "Работа с БД" (3 / 2) (by norm_num)⟩

/-- Concrete aggregation row with level 3.5, inside the silent tier. -/
def rowC6 : CompRow := ⟨1, "Научное письмо", "Коммуникационные", some (7 / 2)⟩

/-- Counterexample to C6 as stated: the aggregated set `[rowC6]` is
non-empty, yet `generate_recommendations` emits the fallback message,
because every competency fell into the silent `[3, 4.5)` tier and so the
accumulated list stayed empty. -/
theorem claim6_fallback_counterexample :
    generate_recommendations [rowC6] = [fallback_msg]
    ∧ ([rowC6] : List CompRow) ≠ [] := by
  constructor
  · have h : recommendation_for "Научное письмо" ((7 : ℚ) / 2) = none := by
      rw [rec_none_iff]
      norm_num
    simp [generate_recommendations, rowC6, h]
  · simp

/-- Claim C6 amended: the fallback "all competencies are well developed"
message is emitted iff the per-competency pass produced no message at
all — that is, iff every aggregated pair has level in `[3, 4.5)`,
which in particular holds vacuously for the empty aggregated set. -/
theorem claim6_fallback_amended (comp_data : List CompRow) :
    (fallback_msg ∈ generate_recommendations comp_data
      ↔ ∀ r ∈ comp_data, 3 ≤ r.avg.getD 0 ∧ r.avg.getD 0 < 4.5)
    ∧ generate_recommendations ([] : List CompRow) = [fallback_msg] := by
  constructor
  · simp only [generate_recommendations]
    cases hrec : (comp_data.filterMap (fun r =>
        recommendation_for r.name (r.avg.getD 0))).isEmpty
    · rw [List.isEmpty_eq_false_iff_exists_mem] at hrec
      obtain ⟨m, hm⟩ := hrec
      simp only [Bool.false_eq_true, if_false]
      constructor
      · intro hmem
        exfalso
        obtain ⟨r, _, hr⟩ := List.mem_filterMap.mp hmem
        exact Nat.lt_irrefl _ (rec_longer_than_fallback _ _ _ hr)
      · intro hall
        exfalso
        obtain ⟨r, hrmem, hr⟩ := List.mem_filterMap.mp hm
        have hn := (rec_none_iff r.name (r.avg.getD 0)).mpr (hall r hrmem)
        rw [hn] at hr
        cases hr
    · rw [List.isEmpty_iff] at hrec
      rw [hrec]
      simp only [if_pos rfl]
      constructor
      · intro _ r hr
        have hn := List.filterMap_eq_nil_iff.mp hrec r hr
        exact (rec_none_iff r.name (r.avg.getD 0)).mp hn
      · intro _
        simp
  · rfl

lemma mem_insert_by {le : α → α → Bool} {x a : α} {l : List α} :
    x ∈ insert_by le a l ↔ x = a ∨ x ∈ l := by
  induction l with
  | nil => simp [insert_by]
  | cons b t ih =>
    unfold insert_by
    split
    · simp [List.mem_cons]
    · simp only [List.mem_cons, ih]
      tauto

lemma mem_sort_by {le : α → α → Bool} {x : α} {l : List α} :
    x ∈ sort_by le l ↔ x ∈ l := by
  induction l with
  | nil => simp [sort_by]
  | cons b t ih =>
    unfold sort_by
    rw [mem_insert_by, ih, List.mem_cons]

/-- The aggregate row `comp_rows` builds for one competency. -/
lemma mem_comp_rows {db : DB} {r : CompRow} :
    r ∈ comp_rows db ↔ ∃ c ∈ db.competencies,
      r = ⟨c.id, c.name, c.category, comp_avg db c⟩ := by
  unfold comp_rows
  rw [List.mem_map]
  constructor
  · rintro ⟨c, hc, rfl⟩
    exact ⟨c, mem_sort_by.mp hc, rfl⟩
  · rintro ⟨c, hc, rfl⟩
    exact ⟨c, mem_sort_by.mpr hc, rfl⟩

/-- Claim C5: a competency of the active set appears in the weak-zone
list exactly when its displayed mean level lies strictly between 0 and
3; level exactly 0 (never graded) never appears, level 2.9 appears,
level 3.0 does not.  Competency names are assumed distinct (one active
profile). -/
theorem claim5_weak_zone_filter (db : DB) (c : Competency)
    (hc : c ∈ db.competencies)
    (hn : (db.competencies.map (fun x => x.name)).Nodup) :
    ((c.name, mean_level db c) ∈ weak_zones db
      ↔ 0 < mean_level db c ∧ mean_level db c < 3)
    ∧ (∀ l, (c.name, l) ∈ weak_zones db → l = mean_level db c)
    ∧ (mean_level db c = 0 → ∀ l, (c.name, l) ∉ weak_zones db)
    ∧ (mean_level db c = 29 / 10 →
        (c.name, mean_level db c) ∈ weak_zones db)
    ∧ (mean_level db c = 3 → ∀ l, (c.name, l) ∉ weak_zones db) := by
  have key : ∀ l : ℚ, (c.name, l) ∈ weak_zones db →
      l = mean_level db c ∧ 0 < mean_level db c ∧ mean_level db c < 3 := by
    intro l hmem
    obtain ⟨r, hr, hfr⟩ := List.mem_filterMap.mp hmem
    obtain ⟨c', hc', rfl⟩ := mem_comp_rows.mp hr
    by_cases hcond : row_level ⟨c'.id, c'.name, c'.category, comp_avg db c'⟩ < 3
        ∧ 0 < row_level ⟨c'.id, c'.name, c'.category, comp_avg db c'⟩
    · rw [if_pos hcond] at hfr
      have hname : c'.name = c.name := congrArg Prod.fst (Option.some.inj hfr)
      have hceq : c' = c := List.inj_on_of_nodup_map hn hc' hc hname
      subst hceq
      have hlev : row_level ⟨c'.id, c'.name, c'.category, comp_avg db c'⟩
          = mean_level db c' := rfl
      have hl : l = mean_level db c' := by
        have := congrArg Prod.snd (Option.some.inj hfr)
        simp at this
        rw [← this, hlev]
      rw [hlev] at hcond
      exact ⟨hl, hcond.2, hcond.1⟩
    · rw [if_neg hcond] at hfr
      cases hfr
  have fwd : 0 < mean_level db c → mean_level db c < 3 →
      (c.name, mean_level db c) ∈ weak_zones db := by
    intro h1 h2
    apply List.mem_filterMap.mpr
    refine ⟨⟨c.id, c.name, c.category, comp_avg db c⟩,
      mem_comp_rows.mpr ⟨c, hc, rfl⟩, ?_⟩
    have hlev : row_level ⟨c.id, c.name, c.category, comp_avg db c⟩
        = mean_level db c := rfl
    rw [if_pos (by rw [hlev]; exact ⟨h2, h1⟩), hlev]
  refine ⟨⟨fun h => (key _ h).2, fun h => fwd h.1 h.2⟩,
    fun l h => (key l h).1, ?_, ?_, ?_⟩
  · intro h0 l hmem
    have := (key l hmem).2.1
    rw [h0] at this
    exact lt_irrefl _ this
  · intro h29
    exact fwd (by rw [h29]; norm_num) (by rw [h29]; norm_num)
  · intro h3 l hmem
    have := (key l hmem).2.2
    rw [h3] at this
    exact lt_irrefl _ this

/-- Store for the C5 witness: one competency with a single grade 2. -/
def dbW5 : DB :=
  ⟨[⟨1, "Запись", "Проект", 2025, none, none⟩], catalog5, [],
   [⟨1, "Научное письмо", "Коммуникационные"⟩], [⟨1, 1, 2⟩], []⟩

/-- Witness for C5: the graded competency of `dbW5`. -/
theorem claim5_weak_zone_filter_witness :
    ((⟨1, "Научное письмо", "Коммуникационные"⟩ : Competency)
        ∈ dbW5.competencies)
    ∧ (dbW5.competencies.map (fun x => x.name)).Nodup
    ∧ (((Competency.name ⟨1, "Научное письмо", "Коммуникационные"⟩,
          mean_level dbW5 ⟨1, "Научное письмо", "Коммуникационные"⟩)
            ∈ weak_zones dbW5
        ↔ 0 < mean_level dbW5 ⟨1, "Научное письмо", "Коммуникационные"⟩
          ∧ mean_level dbW5 ⟨1, "Научное письмо", "Коммуникационные"⟩ < 3)
      ∧ (∀ l, (Competency.name ⟨1, "Научное письмо", "Коммуникационные"⟩, l)
            ∈ weak_zones dbW5 →
          l = mean_level dbW5 ⟨1, "Научное письмо", "Коммуникационные"⟩)
      ∧ (mean_level dbW5 ⟨1, "Научное письмо", "Коммуникационные"⟩ = 0 →
          ∀ l, (Competency.name ⟨1, "Научное письмо", "Коммуникационные"⟩, l)
            ∉ weak_zones dbW5)
      ∧ (mean_level dbW5 ⟨1, "Научное письмо", "Коммуникационные"⟩ = 29 / 10 →
          (Competency.name ⟨1, "Научное письмо", "Коммуникационные"⟩,
            mean_level dbW5 ⟨1, "Научное письмо", "Коммуникационные"⟩)
              ∈ weak_zones dbW5)
      ∧ (mean_level dbW5 ⟨1, "Научное письмо", "Коммуникационные"⟩ = 3 →
          ∀ l, (Competency.name ⟨1, "Научное письмо", "Коммуникационные"⟩, l)
            ∉ weak_zones dbW5)) :=
  ⟨by decide, by decide,
    claim5_weak_zone_filter dbW5 ⟨1, "Научное письмо", "Коммуникационные"⟩
      (by decide) (by decide)⟩

/-- Claim C10: reloading a specialty profile deletes every competency
row and, through the cascade, every entry-competency grade; right after
any reload every competency's mean level is 0 and the weak-zone list is
empty, while entries, goals and unlocked achievements are untouched.
The hypothesis is the foreign-key integrity of `entry_competencies`. -/
theorem claim10_profile_reload (db : DB) (profile : List (String × String))
    (sid : Nat)
    (hFK : ∀ g ∈ db.entry_competencies,
      g.competency_id ∈ db.competencies.map (fun c => c.id)) :
    (load_competencies db profile sid).entry_competencies = []
    ∧ (∀ c ∈ (load_competencies db profile sid).competencies,
        mean_level (load_competencies db profile sid) c = 0)
    ∧ weak_zones (load_competencies db profile sid) = []
    ∧ (load_competencies db profile sid).entries = db.entries
    ∧ (load_competencies db profile sid).goals = db.goals
    ∧ (load_competencies db profile sid).user_achievements
        = db.user_achievements := by
  have h1 : (load_competencies db profile sid).entry_competencies = [] := by
    simp only [load_competencies]
    rw [List.filter_eq_nil_iff]
    intro g hg
    have hmem := hFK g hg
    simp [hmem]
  have havg : ∀ c : Competency,
      comp_avg (load_competencies db profile sid) c = none := by
    intro c
    unfold comp_avg
    rw [h1]
    simp
  have h2 : ∀ c ∈ (load_competencies db profile sid).competencies,
      mean_level (load_competencies db profile sid) c = 0 := by
    intro c _
    unfold mean_level
    rw [havg c]
    exact round1_zero
  have h3 : weak_zones (load_competencies db profile sid) = [] := by
    unfold weak_zones
    rw [List.filterMap_eq_nil_iff]
    intro r hr
    obtain ⟨c, _, rfl⟩ := mem_comp_rows.mp hr
    have hlev : row_level ⟨c.id, c.name, c.category,
        comp_avg (load_competencies db profile sid) c⟩ = 0 := by
      unfold row_level
      rw [havg c]
      exact round1_zero
    rw [if_neg]
    rw [hlev]
    simp
  exact ⟨h1, h2, h3, rfl, rfl, rfl⟩

/-- Store for the C10 witness: one competency already graded. -/
def dbW10 : DB :=
  ⟨[⟨1, "Статья", "Проект", 2025, none, none⟩], catalog5, [],
   [⟨1, "Программирование", "Технические"⟩], [⟨1, 1, 5⟩], []⟩

/-- Witness for C10: reloading the profile wipes the grades of `dbW10`
and leaves its entries intact. -/
theorem claim10_profile_reload_witness :
    (∀ g ∈ dbW10.entry_competencies,
      g.competency_id ∈ dbW10.competencies.map (fun c => c.id))
    ∧ ((load_competencies dbW10 [("Программирование", "Технические")] 2).entry_competencies = []
      ∧ (∀ c ∈ (load_competencies dbW10 [("Программирование", "Технические")] 2).competencies,
          mean_level (load_competencies dbW10 [("Программирование", "Технические")] 2) c = 0)
      ∧ weak_zones (load_competencies dbW10 [("Программирование", "Технические")] 2) = []
      ∧ (load_competencies dbW10 [("Программирование", "Технические")] 2).entries = dbW10.entries
      ∧ (load_competencies dbW10 [("Программирование", "Технические")] 2).goals = dbW10.goals
      ∧ (load_competencies dbW10 [("Программирование", "Технические")] 2).user_achievements
          = dbW10.user_achievements) :=
  ⟨by decide,
    claim10_profile_reload dbW10 [("Программирование", "Технические")] 2
      (by decide)⟩

end Portfolio
